import Mathlib

/-!
Verification of the static vulnerability-pattern matching and scoring engine of the
DappAuditor repository (`src/utils/enhanced-rag-engine.ts`, together with the generated
catalog `src/data/knowledge-base-config.ts` and the line-oriented reentrancy heuristic of
`src/utils/datasetProcessor.ts`).

The TypeScript engine applies JavaScript regular expressions (all compiled with the `g`
flag) to the full contract source via `String.prototype.match`, counts the matches of each
pattern, buckets one description per firing pattern by severity, and derives an integral
security score and a rational confidence value.

The embedding below is executable:

* JavaScript regular expressions are modelled by the first-order syntax `RE` below.  Every
  regex in the repository quantifies (`*`, `+`, `?`) only single-character atoms, so `star`
  takes a character class.  `runs` enumerates the outcomes of a match attempt anchored at a
  position in JavaScript preference order (alternation left-first, greedy quantifiers
  longest-first); backtracking search, negative lookahead and the word-boundary assertion
  `\b` (which needs the previous character, threaded through as `Option Char`) are covered.
  `jsMatchCount` reproduces the match counting done by `String.prototype.match` with a
  global regex: repeatedly take the leftmost preferred match and resume after it (advancing
  one character after a zero-width match).
* JavaScript numbers are modelled exactly: match counts and weighted totals as `Nat`, the
  security score as `Int`, and the confidence arithmetic as `Rat`.  `Math.round x` is
  `round : ℚ → ℤ` (both are `⌊x + 1/2⌋`).
* The character classes `\s`, `\w`, `\d` and `.` are modelled on their ASCII content; the
  few non-ASCII code points JavaScript adds (Unicode spaces, U+2028/U+2029) do not occur in
  any input considered here.
-/

set_option maxRecDepth 20000

namespace DappAuditor

/-- Character classes occurring in the repository's regular expressions. -/
inductive CC where
  /-- `.` (no `s` flag): any character except a line terminator. -/
  | any : CC
  /-- `\s` -/
  | space : CC
  /-- `\w` -/
  | word : CC
  /-- `\d` -/
  | digit : CC
  /-- a positive character set `[...]` -/
  | set (cs : List Char) : CC
  /-- a negated character set `[^...]` -/
  | nset (cs : List Char) : CC
deriving DecidableEq

def ccMatch : CC → Char → Bool
  | .any, c => !(c = '\n' || c = '\r')
  | .space, c => c = ' ' || c = '\t' || c = '\n' || c = '\r' || c = '\x0b' || c = '\x0c'
  | .word, c => ('a' ≤ c && c ≤ 'z') || ('A' ≤ c && c ≤ 'Z') || ('0' ≤ c && c ≤ '9') || c = '_'
  | .digit, c => '0' ≤ c && c ≤ '9'
  | .set cs, c => cs.contains c
  | .nset cs, c => !(cs.contains c)

/-- Syntax of the JavaScript regular expressions used by the engine.  Quantifiers are only
ever applied to single-character atoms in this code base, so `star` ranges over a character
class; `x+` is encoded as `x x*` and `x?` as `(x|ε)`. -/
inductive RE where
  /-- the empty regular expression -/
  | eps : RE
  /-- a literal character -/
  | chr (c : Char) : RE
  /-- a single-character class -/
  | cls (k : CC) : RE
  /-- concatenation -/
  | seq (a b : RE) : RE
  /-- alternation (left alternative preferred, as in JavaScript) -/
  | alt (a b : RE) : RE
  /-- `k*`: greedy repetition of a character class -/
  | star (k : CC) : RE
  /-- negative lookahead `(?! a )` -/
  | nla (a : RE) : RE
  /-- the word-boundary assertion `\b` -/
  | wb : RE
deriving DecidableEq

def isWordChar (c : Char) : Bool := ccMatch .word c

def isWordOpt : Option Char → Bool
  | none => false
  | some c => isWordChar c

def isWordHead : List Char → Bool
  | [] => false
  | c :: _ => isWordChar c

/-- All ways for `k*` to consume a prefix of `s`, longest (greedy) first.  Each outcome is
the pair of the character preceding the remaining input and the remaining input. -/
def starSplits (k : CC) : Option Char → List Char → List (Option Char × List Char)
  | p, [] => [(p, [])]
  | p, c :: rest =>
      if ccMatch k c then starSplits k (some c) rest ++ [(p, c :: rest)]
      else [(p, c :: rest)]

/-- All outcomes of matching `r` anchored at the current position, in JavaScript backtracking
preference order.  The position is represented by the pair of the previous character (for
`\b`) and the remaining input; each outcome is the position right after the match. -/
def runs : RE → Option Char → List Char → List (Option Char × List Char)
  | .eps, p, s => [(p, s)]
  | .chr _, _, [] => []
  | .chr c, _, x :: s => if x = c then [(some x, s)] else []
  | .cls _, _, [] => []
  | .cls k, _, x :: s => if ccMatch k x then [(some x, s)] else []
  | .seq a b, p, s => (runs a p s).flatMap fun pr => runs b pr.1 pr.2
  | .alt a b, p, s => runs a p s ++ runs b p s
  | .star k, p, s => starSplits k p s
  | .nla a, p, s => if (runs a p s).isEmpty then [(p, s)] else []
  | .wb, p, s => if isWordOpt p != isWordHead s then [(p, s)] else []

/-- The preferred (first-found) match of `r` anchored at the current position, if any:
exactly the match a JavaScript backtracking engine commits to. -/
def tryMatch (r : RE) (p : Option Char) (s : List Char) : Option (Option Char × List Char) :=
  (runs r p s).head?

/-- Worker for `jsMatchCount`; `fuel` only forces termination and is always sufficient. -/
def jsCountGo : Nat → RE → Option Char → List Char → Nat
  | 0, _, _, _ => 0
  | fuel + 1, r, p, s =>
      match tryMatch r p s with
      | some (p', s') =>
          if s'.length = s.length then
            -- zero-width match: count it and advance one character
            match s with
            | [] => 1
            | c :: rest => 1 + jsCountGo fuel r (some c) rest
          else 1 + jsCountGo fuel r p' s'
      | none =>
          match s with
          | [] => 0
          | c :: rest => jsCountGo fuel r (some c) rest

/-- The number of matches `sourceText.match(re)` reports for a `g`-flagged JavaScript regex:
scan left to right, at each position commit to the preferred match if one exists, and resume
after it. -/
def jsMatchCount (r : RE) (s : List Char) : Nat :=
  jsCountGo (s.length + 1) r none s

/-! ### Combinators used to transcribe the regex literals -/

def rcat : List RE → RE
  | [] => .eps
  | [r] => r
  | r :: rs => .seq r (rcat rs)

def ralt : List RE → RE
  | [] => .nla .eps     -- matches nothing; unused
  | [r] => r
  | r :: rs => .alt r (ralt rs)

/-- A literal string, character by character. -/
def lit (s : String) : RE := rcat (s.data.map RE.chr)

/-- `k+` -/
def plusC (k : CC) : RE := .seq (.cls k) (.star k)

/-- `r?` -/
def opt (r : RE) : RE := .alt r .eps

/-- `\s*` -/
def sp : RE := .star .space
/-- `\s+` -/
def sp1 : RE := plusC .space
/-- `\w+` -/
def wd1 : RE := plusC .word
/-- `[^)]*` -/
def noP : RE := .star (.nset [')'])
/-- `[^}]*` -/
def noB : RE := .star (.nset ['\x7d'])
/-- `[^{]*` -/
def noLB : RE := .star (.nset ['\x7b'])
/-- `.*` -/
def dotStar : RE := .star .any

/-! ### The regex literals of `enhanced-rag-engine.ts` and `knowledge-base-config.ts` -/

/-- `/\.call\s*\{[^}]*\}\s*\([^)]*\)|\.call\s*\([^)]*\)(?!\s*\.)/g` -/
def reentrancyRE : RE := ralt [
  rcat [lit ".call", sp, .chr '\x7b', noB, .chr '\x7d', sp, .chr '(', noP, .chr ')'],
  rcat [lit ".call", sp, .chr '(', noP, .chr ')', .nla (rcat [sp, .chr '.'])]]

/-- `/\.call\s*\([^)]*\)\s*;|\.send\s*\([^)]*\)\s*;|\.transfer\s*\([^)]*\)\s*;/g` -/
def uncheckedReturnRE : RE := ralt [
  rcat [lit ".call", sp, .chr '(', noP, .chr ')', sp, .chr ';'],
  rcat [lit ".send", sp, .chr '(', noP, .chr ')', sp, .chr ';'],
  rcat [lit ".transfer", sp, .chr '(', noP, .chr ')', sp, .chr ';']]

/-- `/(?:uint\d*|int\d*)\s+\w+\s*[+\-*\/]=?\s*\w+(?!\s*;)/g` -/
def integerOverflowRE : RE := rcat [
  .alt (rcat [lit "uint", .star .digit]) (rcat [lit "int", .star .digit]),
  sp1, wd1, sp, .cls (.set ['+', '-', '*', '/']), opt (.chr '='), sp, wd1,
  .nla (rcat [sp, .chr ';'])]

/-- `/tx\.origin/g` -/
def txOriginRE : RE := lit "tx.origin"

/-- `/selfdestruct\s*\([^)]*\)/g` -/
def selfdestructRE : RE := rcat [lit "selfdestruct", sp, .chr '(', noP, .chr ')']

/-- `/\.delegatecall\s*\([^)]*\)/g` -/
def delegatecallRE : RE := rcat [lit ".delegatecall", sp, .chr '(', noP, .chr ')']

/-- `/block\.timestamp|now(?!\w)/g` -/
def timestampRE : RE := .alt (lit "block.timestamp") (rcat [lit "now", .nla (.cls .word)])

/-- `/function\s+\w+\s*\([^)]*address[^)]*\)\s*(?:public|external)[^{]*\{(?![^}]*require\s*\([^}]*!=\s*address\(0\))/g` -/
def missingInputValidationRE : RE := rcat [
  lit "function", sp1, wd1, sp, .chr '(', noP, lit "address", noP, .chr ')', sp,
  .alt (lit "public") (lit "external"), noLB, .chr '\x7b',
  .nla (rcat [noB, lit "require", sp, .chr '(', noB, lit "!=", sp, lit "address(0)"])]

/-- `/(\.call\s*\{[^}]*\}\s*\([^)]*\)|msg\.sender\.call|address\([^)]*\)\.call)(?!.*require\s*\(.*success)/g` -/
def enhancedReentrancyRE : RE := rcat [
  ralt [
    rcat [lit ".call", sp, .chr '\x7b', noB, .chr '\x7d', sp, .chr '(', noP, .chr ')'],
    lit "msg.sender.call",
    rcat [lit "address(", noP, .chr ')', lit ".call"]],
  .nla (rcat [dotStar, lit "require", sp, .chr '(', dotStar, lit "success"])]

/-- `/(block\.timestamp|now(?!\w)).*(?:require|if|>|<|>=|<=)/g` -/
def enhancedTimestampRE : RE := rcat [
  .alt (lit "block.timestamp") (rcat [lit "now", .nla (.cls .word)]),
  dotStar,
  ralt [lit "require", lit "if", lit ">", lit "<", lit ">=", lit "<="]]

/-- `/function\s+\w+\s*\([^)]*\)\s*(?:public|external)(?![^{]*\b(?:onlyOwner|require\s*\(.*msg\.sender))/g` -/
def enhancedAccessControlRE : RE := rcat [
  lit "function", sp1, wd1, sp, .chr '(', noP, .chr ')', sp,
  .alt (lit "public") (lit "external"),
  .nla (rcat [noLB, .wb,
    .alt (lit "onlyOwner") (rcat [lit "require", sp, .chr '(', dotStar, lit "msg.sender"])])]

/-- `/(?:uint\d*|int\d*)\s+\w+\s*[+\-*\/]=?\s*\w+(?!.*(?:SafeMath|unchecked))/g` -/
def enhancedOverflowRE : RE := rcat [
  .alt (rcat [lit "uint", .star .digit]) (rcat [lit "int", .star .digit]),
  sp1, wd1, sp, .cls (.set ['+', '-', '*', '/']), opt (.chr '='), sp, wd1,
  .nla (rcat [dotStar, .alt (lit "SafeMath") (lit "unchecked")])]

/-- `/(?:\.call\s*\([^)]*\)|payable\([^)]*\)\.(?:send|transfer))\s*;(?!.*(?:require\s*\(|success))/g` -/
def enhancedUncheckedCallRE : RE := rcat [
  .alt (rcat [lit ".call", sp, .chr '(', noP, .chr ')'])
       (rcat [lit "payable(", noP, .chr ')', .chr '.', .alt (lit "send") (lit "transfer")]),
  sp, .chr ';',
  .nla (rcat [dotStar, .alt (rcat [lit "require", sp, .chr '(']) (lit "success")])]

/-- `/for\s*\([^)]*\.length[^)]*\)/g` -/
def gasLoopLengthRE : RE := rcat [lit "for", sp, .chr '(', noP, lit ".length", noP, .chr ')']

/-- `/storage\s+\w+\s*=\s*\w+\[\w+\]/g` -/
def gasStorageReadRE : RE := rcat [lit "storage", sp1, wd1, sp, .chr '=', sp, wd1, .chr '[', wd1, .chr ']']

/-- `/string\s+memory\s+\w+\s*=\s*"[^"]*"/g` -/
def gasStringMemoryRE : RE := rcat [lit "string", sp1, lit "memory", sp1, wd1, sp, .chr '=', sp,
  .chr '"', .star (.nset ['"']), .chr '"']

/-! ### Data model (`enhanced-rag-engine.ts`) -/

/-- `severity: 'critical' | 'high' | 'medium' | 'low'` -/
inductive Severity where
  | critical : Severity
  | high : Severity
  | medium : Severity
  | low : Severity
deriving DecidableEq

/-- The `VulnerabilityPattern` interface.  `prevalence?: number` is present (with value in
`[0,1]`) only on dataset-derived patterns. -/
structure VulnerabilityPattern where
  id : String
  name : String
  severity : Severity
  pattern : RE
  description : String
  recommendation : String
  examples : List String
  cwe : Option String := none
  prevalence : Option ℚ := none
deriving DecidableEq

/-- One entry of `GAS_OPTIMIZATION_PATTERNS`. -/
structure GasPattern where
  pattern : RE
  issue : String
  optimization : String
deriving DecidableEq

/-- `String.prototype.includes`, used for the `id.includes('enhanced_')` convention. -/
def hasSubstring : List Char → List Char → Bool
  | [], needle => needle.isEmpty
  | c :: t, needle => needle.isPrefixOf (c :: t) || hasSubstring t needle

def strContains (hay needle : String) : Bool := hasSubstring hay.data needle.data

/-- The `prevalence: 0.2` literal carried by every generated enhanced pattern, stored in
reduced form `1/5` so that kernel evaluation can decide on it (`Rat`'s scientific-literal
and division operations do not reduce definitionally); `prevalencePointTwo_eq` checks it is
exactly `0.2`. -/
def prevalencePointTwo : ℚ := ⟨1, 5, by decide, by decide⟩

theorem prevalencePointTwo_eq : prevalencePointTwo = 0.2 := by
  rw [prevalencePointTwo, Rat.mk'_eq_divInt, Rat.divInt_eq_div]
  norm_num

/-- First entry of `BASE_VULNERABILITY_PATTERNS`. -/
def reentrancyPattern : VulnerabilityPattern :=
  { id := "reentrancy",
    name := "Reentrancy Vulnerability",
    severity := .critical,
    pattern := reentrancyRE,
    description := "External calls that can be exploited for reentrancy attacks",
    recommendation := "Use checks-effects-interactions pattern and reentrancy guards",
    examples := ["victim.call\x7bvalue: amount\x7d(\"\")",
      "target.call(abi.encodeWithSignature(\"transfer(address,uint256)\", to, value))"],
    cwe := some "CWE-841" }

/-- Entry `unchecked_return` of `BASE_VULNERABILITY_PATTERNS`. -/
def uncheckedReturnPattern : VulnerabilityPattern :=
  { id := "unchecked_return",
    name := "Unchecked Return Values",
    severity := .high,
    pattern := uncheckedReturnRE,
    description := "External calls without checking return values",
    recommendation := "Always check return values of external calls",
    examples := ["target.call(data);", "payable(to).send(amount);"],
    cwe := some "CWE-252" }

/-- Entry `integer_overflow` of `BASE_VULNERABILITY_PATTERNS`. -/
def integerOverflowPattern : VulnerabilityPattern :=
  { id := "integer_overflow",
    name := "Integer Overflow/Underflow",
    severity := .high,
    pattern := integerOverflowRE,
    description := "Arithmetic operations without overflow protection",
    recommendation := "Use SafeMath library or Solidity 0.8+ built-in overflow checks",
    examples := ["balance += amount", "totalSupply = totalSupply * multiplier"],
    cwe := some "CWE-190" }

/-- Entry `tx_origin` of `BASE_VULNERABILITY_PATTERNS`. -/
def txOriginPattern : VulnerabilityPattern :=
  { id := "tx_origin",
    name := "tx.origin Usage",
    severity := .medium,
    pattern := txOriginRE,
    description := "Using tx.origin for authorization is vulnerable to phishing attacks",
    recommendation := "Use msg.sender instead of tx.origin for access control",
    examples := ["require(tx.origin == owner)"],
    cwe := some "CWE-346" }

/-- Entry `unprotected_selfdestruct` of `BASE_VULNERABILITY_PATTERNS`. -/
def unprotectedSelfdestructPattern : VulnerabilityPattern :=
  { id := "unprotected_selfdestruct",
    name := "Unprotected selfdestruct",
    severity := .critical,
    pattern := selfdestructRE,
    description := "selfdestruct without proper access control",
    recommendation := "Add proper access control modifiers to selfdestruct functions",
    examples := ["selfdestruct(payable(owner))"],
    cwe := some "CWE-284" }

/-- Entry `delegatecall_to_untrusted` of `BASE_VULNERABILITY_PATTERNS`. -/
def delegatecallPattern : VulnerabilityPattern :=
  { id := "delegatecall_to_untrusted",
    name := "Delegatecall to Untrusted Contract",
    severity := .critical,
    pattern := delegatecallRE,
    description := "Using delegatecall with untrusted contracts",
    recommendation := "Avoid delegatecall to user-controlled addresses",
    examples := ["target.delegatecall(data)"],
    cwe := some "CWE-829" }

/-- Entry `timestamp_dependence` of `BASE_VULNERABILITY_PATTERNS`. -/
def timestampPattern : VulnerabilityPattern :=
  { id := "timestamp_dependence",
    name := "Timestamp Dependence",
    severity := .medium,
    pattern := timestampRE,
    description := "Relying on block.timestamp for critical logic",
    recommendation := "Avoid using block.timestamp for critical decisions",
    examples := ["require(block.timestamp > deadline)"],
    cwe := some "CWE-829" }

/-- Entry `missing_input_validation` of `BASE_VULNERABILITY_PATTERNS`. -/
def missingInputValidationPattern : VulnerabilityPattern :=
  { id := "missing_input_validation",
    name := "Missing Input Validation",
    severity := .medium,
    pattern := missingInputValidationRE,
    description := "Functions accepting addresses without zero-address checks",
    recommendation := "Add input validation for address parameters",
    examples := ["function transfer(address to, uint256 amount)"],
    cwe := some "CWE-20" }

/-- `BASE_VULNERABILITY_PATTERNS` (8 entries). -/
def BASE_VULNERABILITY_PATTERNS : List VulnerabilityPattern :=
  [reentrancyPattern, uncheckedReturnPattern, integerOverflowPattern, txOriginPattern,
   unprotectedSelfdestructPattern, delegatecallPattern, timestampPattern,
   missingInputValidationPattern]

/-- `GAS_OPTIMIZATION_PATTERNS`. -/
def GAS_OPTIMIZATION_PATTERNS : List GasPattern := [
  { pattern := gasLoopLengthRE,
    issue := "Array length called in loop condition",
    optimization := "Cache array length before loop" },
  { pattern := gasStorageReadRE,
    issue := "Repeated storage reads",
    optimization := "Cache storage variables in memory" },
  { pattern := gasStringMemoryRE,
    issue := "String literals in memory",
    optimization := "Use bytes32 for short strings" }]



/-- Entry `enhanced_reentrancy` of `ENHANCED_VULNERABILITY_PATTERNS`. -/
def enhancedReentrancyPattern : VulnerabilityPattern :=
  { id := "enhanced_reentrancy",
    name := "Reentrancy Vulnerability (Dataset Enhanced)",
    severity := .critical,
    pattern := enhancedReentrancyRE,
    description := "External calls vulnerable to reentrancy attacks",
    recommendation := "Use ReentrancyGuard, checks-effects-interactions pattern, or pull payment",
    examples := ["function withdraw() public \x7b\n    uint256 amount = balances[msg.sender];\n    require(amount > 0, \"No funds\");\n    \n    // Vulnerable: external call before state change\n    (bool success,) = msg.sender.call\x7bvalue: amount\x7d(\"\");\n    require(success, \"Transfer failed\");\n    \n    balances[msg.sender] = 0; // State change after external call\n\x7d",
      "function emergencyWithdraw() external \x7b\n    uint256 balance = getUserBalance(msg.sender);\n    // Vulnerable: external call in modifier/helper\n    IToken(token).transfer(msg.sender, balance);\n    userBalances[msg.sender] = 0;\n\x7d"],
    cwe := some "CWE-841",
    prevalence := some prevalencePointTwo }

/-- Entry `enhanced_timestamp` of `ENHANCED_VULNERABILITY_PATTERNS`. -/
def enhancedTimestampPattern : VulnerabilityPattern :=
  { id := "enhanced_timestamp",
    name := "Timestamp Dependence (Dataset Enhanced)",
    severity := .medium,
    pattern := enhancedTimestampRE,
    description := "Logic dependent on block timestamp manipulation",
    recommendation := "Use block numbers or external oracles for time-dependent logic",
    examples := ["function withdraw() public \x7b\n    require(block.timestamp > deadline, \"Too early\");\n    // Vulnerable: miners can manipulate timestamp\n    payable(msg.sender).transfer(balance);\n\x7d",
      "uint256 randomNumber = uint256(keccak256(abi.encodePacked(block.timestamp, block.difficulty))) % 100;"],
    cwe := some "CWE-829",
    prevalence := some prevalencePointTwo }

/-- Entry `enhanced_access_control` of `ENHANCED_VULNERABILITY_PATTERNS`. -/
def enhancedAccessControlPattern : VulnerabilityPattern :=
  { id := "enhanced_access_control",
    name := "Access Control Issues (Dataset Enhanced)",
    severity := .high,
    pattern := enhancedAccessControlRE,
    description := "Functions lacking proper access control",
    recommendation := "Implement proper access control modifiers and checks",
    examples := ["function withdraw() public \x7b\n    // Missing access control!\n    payable(msg.sender).transfer(address(this).balance);\n\x7d",
      "modifier onlyOwner() \x7b\n    require(tx.origin == owner, \"Not owner\");\n    _; // Should use msg.sender instead of tx.origin\n\x7d"],
    cwe := some "CWE-284",
    prevalence := some prevalencePointTwo }

/-- Entry `enhanced_overflow` of `ENHANCED_VULNERABILITY_PATTERNS`. -/
def enhancedOverflowPattern : VulnerabilityPattern :=
  { id := "enhanced_overflow",
    name := "Integer Overflow/Underflow (Dataset Enhanced)",
    severity := .high,
    pattern := enhancedOverflowRE,
    description := "Arithmetic operations without overflow protection",
    recommendation := "Use SafeMath library or Solidity 0.8+ built-in checks",
    examples := ["function transfer(address to, uint256 amount) public \x7b\n    balances[msg.sender] -= amount; // Potential underflow\n    balances[to] += amount; // Potential overflow\n\x7d",
      "uint256 total = price * quantity; // Potential overflow\nrequire(msg.value >= total, \"Insufficient payment\");"],
    cwe := some "CWE-190",
    prevalence := some prevalencePointTwo }

/-- Entry `enhanced_unchecked_call` of `ENHANCED_VULNERABILITY_PATTERNS`. -/
def enhancedUncheckedCallPattern : VulnerabilityPattern :=
  { id := "enhanced_unchecked_call",
    name := "Unchecked External Calls (Dataset Enhanced)",
    severity := .high,
    pattern := enhancedUncheckedCallRE,
    description := "External calls without return value verification",
    recommendation := "Always check return values of external calls",
    examples := ["function sendPayment(address to, uint256 amount) public \x7b\n    to.call\x7bvalue: amount\x7d(\"\"); // Return value not checked\n\x7d",
      "payable(winner).send(prize); // send() can fail silently"],
    cwe := some "CWE-252",
    prevalence := some prevalencePointTwo }

/-- `ENHANCED_VULNERABILITY_PATTERNS` from the generated `knowledge-base-config.ts`
(5 entries, each with `prevalence: 0.2`). -/
def ENHANCED_VULNERABILITY_PATTERNS : List VulnerabilityPattern :=
  [enhancedReentrancyPattern, enhancedTimestampPattern, enhancedAccessControlPattern,
   enhancedOverflowPattern, enhancedUncheckedCallPattern]

/-- The aggregate statistics exported alongside the enhanced catalog. -/
structure DatasetStatistics where
  totalContracts : ℕ
  vulnerabilityDistribution : List (String × ℕ)
  processedDate : String
deriving DecidableEq

/-- `DATASET_STATISTICS` of `knowledge-base-config.ts`. -/
def DATASET_STATISTICS : DatasetStatistics :=
  { totalContracts := 10,
    vulnerabilityDistribution := [("reentrancy", 2), ("timestamp_dependence", 2),
      ("access_control", 2), ("integer_overflow", 2), ("unchecked_call", 2)],
    processedDate := "2025-07-22T08:24:29.414Z" }

/-- The content of a successfully imported `@/data/knowledge-base-config` module. -/
structure EnhancedConfig where
  patterns : List VulnerabilityPattern
  statistics : DatasetStatistics
deriving DecidableEq

/-- The enhanced-catalog module as present in this repository. -/
def repoEnhancedConfig : EnhancedConfig :=
  { patterns := ENHANCED_VULNERABILITY_PATTERNS, statistics := DATASET_STATISTICS }

/-- The `SecurityKnowledgeBase` interface. -/
structure SecurityKnowledgeBase where
  vulnerabilities : List VulnerabilityPattern
  bestPractices : List String
  gasOptimizations : List String

/-- The private state of an `EnhancedSmartContractRAG` instance. -/
structure EngineState where
  knowledgeBase : SecurityKnowledgeBase
  datasetStatistics : Option DatasetStatistics
  datasetPatternsLoaded : Bool

/-- The state built by the constructor body before `loadEnhancedPatterns` runs. -/
def baseEngineState : EngineState :=
  { knowledgeBase :=
      { vulnerabilities := BASE_VULNERABILITY_PATTERNS,
        bestPractices := [
          "Follow checks-effects-interactions pattern",
          "Use reentrancy guards for external calls",
          "Validate all inputs, especially addresses",
          "Emit events for all state changes",
          "Use latest Solidity version",
          "Implement proper access control",
          "Handle failed external calls gracefully",
          "Avoid using tx.origin for authorization",
          "Use pull over push for payments",
          "Implement circuit breakers for emergency stops"],
        gasOptimizations := [
          "Pack struct variables efficiently",
          "Use uint256 instead of smaller uints when possible",
          "Cache array lengths in loops",
          "Use calldata instead of memory for read-only function parameters",
          "Batch operations when possible",
          "Use events instead of storage for data that doesn\x27t need to be accessed on-chain"] },
    datasetStatistics := none,
    datasetPatternsLoaded := false }

/-- `loadEnhancedPatterns`.  The dynamic `import('@/data/knowledge-base-config')` either
yields the module content (`some cfg`) or fails/lacks the export (`none`); the `try/catch`
swallows the failure, so the function is total and on failure leaves the state unchanged. -/
def loadEnhancedPatterns (st : EngineState) (src : Option EnhancedConfig) : EngineState :=
  match src with
  | some cfg =>
      { st with
        knowledgeBase :=
          { st.knowledgeBase with
            vulnerabilities := st.knowledgeBase.vulnerabilities ++ cfg.patterns },
        datasetStatistics := some cfg.statistics,
        datasetPatternsLoaded := true }
  | none => st

/-- The `EnhancedSmartContractRAG` constructor: build the base knowledge base, then attempt
to load the enhanced patterns from `src`. -/
def mkEngine (src : Option EnhancedConfig) : EngineState :=
  loadEnhancedPatterns baseEngineState src

/-- The exported singleton `enhancedContractRAG` as constructed in this repository, where
`knowledge-base-config.ts` is present and imports successfully. -/
def defaultEngine : EngineState := mkEngine (some repoEnhancedConfig)

/-- `reloadEnhancedPatterns`: drop every pattern whose id contains `'enhanced_'`, then run
`loadEnhancedPatterns` again; returns `datasetPatternsLoaded` and the new state. -/
def reloadEnhancedPatterns (st : EngineState) (src : Option EnhancedConfig) :
    Bool × EngineState :=
  let cleared : EngineState :=
    { st with
      knowledgeBase :=
        { st.knowledgeBase with
          vulnerabilities :=
            st.knowledgeBase.vulnerabilities.filter
              (fun p => !(strContains p.id "enhanced_")) } }
  let st' := loadEnhancedPatterns cleared src
  (st'.datasetPatternsLoaded, st')

/-! ### `analyzeContractWithConfidence` -/

/-- The `vulnerabilities` object of the analysis result: one list of finding descriptions per
severity (insertion order `critical, high, medium, low`). -/
structure FindingSet where
  critical : List String
  high : List String
  medium : List String
  low : List String
deriving DecidableEq

def emptyFindings : FindingSet := ⟨[], [], [], []⟩

/-- `vulnerabilities[vuln.severity].push(d)` -/
def FindingSet.push (fs : FindingSet) : Severity → String → FindingSet
  | .critical, d => { fs with critical := fs.critical ++ [d] }
  | .high, d => { fs with high := fs.high ++ [d] }
  | .medium, d => { fs with medium := fs.medium ++ [d] }
  | .low, d => { fs with low := fs.low ++ [d] }

def FindingSet.bucket (fs : FindingSet) : Severity → List String
  | .critical => fs.critical
  | .high => fs.high
  | .medium => fs.medium
  | .low => fs.low

/-- `Object.entries(vulnerabilities)` in insertion order. -/
def FindingSet.entries (fs : FindingSet) : List (Severity × List String) :=
  [(.critical, fs.critical), (.high, fs.high), (.medium, fs.medium), (.low, fs.low)]

/-- `severity.toUpperCase()` -/
def Severity.upperKey : Severity → String
  | .critical => "CRITICAL"
  | .high => "HIGH"
  | .medium => "MEDIUM"
  | .low => "LOW"

/-- `getSeverityWeight` (the TS `default: return 0` branch is unreachable, the severity
union being closed). -/
def getSeverityWeight : Severity → ℕ
  | .critical => 4
  | .high => 3
  | .medium => 2
  | .low => 1

/-- JavaScript truthiness of the optional `prevalence` field (`undefined` and `0` are
falsy). -/
def prevalenceTruthy : Option ℚ → Bool
  | none => false
  | some p => if p = 0 then false else true

/-- The guard `vuln.id.includes('enhanced_') && vuln.prevalence` of the scoring loop. -/
def enhancedHit (v : VulnerabilityPattern) : Bool :=
  strContains v.id "enhanced_" && prevalenceTruthy v.prevalence

/-- The accumulator of the `this.knowledgeBase.vulnerabilities.forEach` loop. -/
structure MatchAcc where
  vulnerabilities : FindingSet
  totalIssues : ℕ
  datasetMatches : ℕ
  totalConfidence : ℚ

def initialMatchAcc : MatchAcc := ⟨emptyFindings, 0, 0, 0⟩

/-- One iteration of the scoring loop: `contractCode.match(vuln.pattern)` either yields
nothing (no change) or pushes the description once, adds `matches.length × weight` to the
weighted total, and contributes `prevalence` (counting a dataset match) or a flat `0.5` to
the confidence sum. -/
def vulnStep (code : List Char) (acc : MatchAcc) (vuln : VulnerabilityPattern) : MatchAcc :=
  let m := jsMatchCount vuln.pattern code
  if 0 < m then
    let acc1 : MatchAcc :=
      { acc with
        vulnerabilities := acc.vulnerabilities.push vuln.severity vuln.description,
        totalIssues := acc.totalIssues + m * getSeverityWeight vuln.severity }
    if enhancedHit vuln then
      { acc1 with
        datasetMatches := acc1.datasetMatches + 1,
        totalConfidence := acc1.totalConfidence + vuln.prevalence.getD 0 }
    else
      { acc1 with totalConfidence := acc1.totalConfidence + 0.5 }
  else acc

/-- `Math.round(confidence * 10) / 10` (`Math.round x = ⌊x + 1/2⌋ = round x`). -/
def roundTo1 (q : ℚ) : ℚ := ((round (q * 10) : ℤ) : ℚ) / 10

/-- `confidence.toFixed(1)` for the non-negative values occurring here. -/
def qToFixed1 (q : ℚ) : String :=
  let n : ℤ := round (q * 10)
  toString (n / 10) ++ "." ++ toString (n % 10)

/-- How a JavaScript template literal prints the one-decimal rounded confidence: an integer
prints without a decimal point, otherwise one decimal digit is shown. -/
def jsNumOneDec (q : ℚ) : String :=
  if q.den = 1 then toString q.num
  else toString ((q * 10).num / 10) ++ "." ++ toString ((q * 10).num % 10)

/-- `xs.slice(0, 3).forEach((x, i) => out += i+1 ++ ". " ++ x ++ "\n")` -/
def numberedBlock : ℕ → List String → String
  | _, [] => ""
  | i, x :: xs => toString i ++ ". " ++ x ++ "\n" ++ numberedBlock (i + 1) xs

/-- `xs.map((x, i) => i+1 ++ ". " ++ x)` -/
def numberedList : ℕ → List String → List String
  | _, [] => []
  | i, x :: xs => (toString i ++ ". " ++ x) :: numberedList (i + 1) xs

/-- `generateEnhancedDetailedAnalysis`. -/
def generateEnhancedDetailedAnalysis (st : EngineState) (vulnerabilities : FindingSet)
    (gasIssues : List String) (datasetMatches : ℕ) (confidence : ℚ) : String :=
  let header := "Enhanced Smart Contract Security Analysis:\n\n"
  let datasetLine :=
    if st.datasetPatternsLoaded then
      "🔬 Analysis enhanced with " ++ toString st.knowledgeBase.vulnerabilities.length ++
        " patterns from dataset\n" ++
      "📊 Dataset matches: " ++ toString datasetMatches ++ " | Confidence: " ++
        qToFixed1 confidence ++ "/5\n\n"
    else
      "ℹ️ Using base patterns. Run dataset processor for enhanced analysis.\n\n"
  let totalVulns :=
    (vulnerabilities.critical ++ vulnerabilities.high ++ vulnerabilities.medium ++
      vulnerabilities.low).length
  let vulnBlock :=
    if totalVulns = 0 then
      "✅ No obvious vulnerabilities detected in static analysis.\n\n"
    else
      "⚠️ Found " ++ toString totalVulns ++ " potential security issues:\n" ++
      String.join (vulnerabilities.entries.map fun e =>
        if 0 < e.2.length then
          "- " ++ e.1.upperKey ++ ": " ++ toString e.2.length ++ " issues\n"
        else "") ++ "\n"
  let gasBlock :=
    if 0 < gasIssues.length then
      "⛽ " ++ toString gasIssues.length ++ " gas optimization opportunities identified.\n\n"
    else ""
  let recHeader := "Enhanced Recommendations:\n"
  let datasetRec :=
    if st.datasetPatternsLoaded && 0 < datasetMatches then
      "🎯 Dataset-validated patterns detected - high confidence findings\n"
    else ""
  header ++ datasetLine ++ vulnBlock ++ gasBlock ++ recHeader ++ datasetRec ++
    numberedBlock 1 (st.knowledgeBase.bestPractices.take 3)

/-- The `EnhancedAnalysisResult` interface.  There is no error alternative: the analysis is
a total function of the engine state and the source text, whatever the input size. -/
structure EnhancedAnalysisResult where
  vulnerabilities : FindingSet
  gasOptimizations : List String
  securityScore : ℤ
  detailedAnalysis : String
  confidence : ℚ
  datasetMatches : ℕ
  knowledgeBaseSize : ℕ
  datasetEnhanced : Bool

/-- `analyzeContractWithConfidence`. -/
def analyzeContractWithConfidence (st : EngineState) (contractCode : String) :
    EnhancedAnalysisResult :=
  let code := contractCode.data
  let acc := st.knowledgeBase.vulnerabilities.foldl (vulnStep code) initialMatchAcc
  let gasIssues := GAS_OPTIMIZATION_PATTERNS.foldl
    (fun gs gp => if 0 < jsMatchCount gp.pattern code then gs ++ [gp.optimization] else gs)
    ([] : List String)
  let securityScore : ℤ := max 0 (5 - ((acc.totalIssues / 2 : ℕ) : ℤ))
  let confidence : ℚ :=
    if 0 < acc.datasetMatches then
      min ((acc.totalConfidence /
        (((acc.datasetMatches + acc.vulnerabilities.critical.length +
           acc.vulnerabilities.high.length : ℕ) : ℚ))) * 5) 5
    else
      min acc.totalConfidence 5
  { vulnerabilities := acc.vulnerabilities,
    gasOptimizations := gasIssues,
    securityScore := securityScore,
    detailedAnalysis :=
      generateEnhancedDetailedAnalysis st acc.vulnerabilities gasIssues acc.datasetMatches
        confidence,
    confidence := roundTo1 confidence,
    datasetMatches := acc.datasetMatches,
    knowledgeBaseSize := st.knowledgeBase.vulnerabilities.length,
    datasetEnhanced := st.datasetPatternsLoaded }

/-- `[...new Set(xs)]`: deduplicate by exact equality, keeping first occurrences in order. -/
def dedupFirst (seen : List String) : List String → List String
  | [] => []
  | x :: xs =>
      if seen.contains x then dedupFirst seen xs
      else x :: dedupFirst (x :: seen) xs

/-- `getContextualRecommendations`. -/
def getContextualRecommendations (st : EngineState) (contractCode : String) : List String :=
  dedupFirst []
    ((st.knowledgeBase.vulnerabilities.filter
        (fun v => 0 < jsMatchCount v.pattern contractCode.data)).map
      (fun v => v.recommendation))

/-- The static tail of the prompt template (everything after the contract code up to the
knowledge-base size interpolation). -/
def promptAuditInstructions : String :=
  "\n\nPlease provide a comprehensive security audit that:\n" ++
  "1. Validates and refines the pre-detected vulnerability patterns\n" ++
  "2. Identifies any additional security issues missed by pattern matching\n" ++
  "3. Provides specific remediation steps with code examples where possible\n" ++
  "4. Considers the confidence level from our dataset analysis\n" ++
  "5. Rates the overall security from 0-5 stars with these strict criteria:\n" ++
  "   - 5 stars: Zero vulnerabilities, follows all best practices\n" ++
  "   - 4 stars: No critical/high issues, minor medium issues only  \n" ++
  "   - 3 stars: No critical issues but has high severity issues\n" ++
  "   - 2 stars: Has critical vulnerabilities or multiple high severity issues\n" ++
  "   - 1 star: Multiple critical and high severity vulnerabilities\n" ++
  "   - 0 stars: Fundamental security flaws, unsafe for deployment\n" ++
  "\nIMPORTANT: Consider that patterns with higher dataset confidence (from our "

/-- The JSON-format section closing the prompt template. -/
def promptJsonFormat : String :=
  "-pattern knowledge base) should be weighted more heavily in your analysis.\n" ++
  "\nReturn your analysis in this JSON format:\n" ++
  "\x7b\n" ++
  "  \"stars\": number,\n" ++
  "  \"summary\": \"concise summary mentioning dataset confidence if applicable\", \n" ++
  "  \"vulnerabilities\": \x7b\n" ++
  "    \"critical\": [\"array of critical issues with specific details\"],\n" ++
  "    \"high\": [\"array of high severity issues with remediation\"],\n" ++
  "    \"medium\": [\"array of medium severity issues\"],\n" ++
  "    \"low\": [\"array of low severity issues\"]\n" ++
  "  \x7d,\n" ++
  "  \"recommendations\": [\"array of specific remediation steps with code examples\"],\n" ++
  "  \"gasOptimizations\": [\"array of gas optimization suggestions\"]\n" ++
  "\x7d"

/-- `generateEnhancedPromptWithDataset`, modelled as an invocation on the instance: it reads
the state, calls `analyzeContractWithConfidence` and `getContextualRecommendations`, and
assigns no instance field, so the state it hands back is the state it received. -/
def generateEnhancedPromptWithDataset (st : EngineState) (contractCode : String) :
    String × EngineState :=
  let analysis := analyzeContractWithConfidence st contractCode
  let contextualRecommendations := getContextualRecommendations st contractCode
  let datasetInfo :=
    if st.datasetPatternsLoaded then
      "\nDATASET ENHANCEMENT:\n- Knowledge base contains " ++
        toString st.knowledgeBase.vulnerabilities.length ++ " vulnerability patterns\n- " ++
        toString analysis.datasetMatches ++ " dataset patterns matched in this contract\n" ++
        "- Analysis confidence: " ++ jsNumOneDec analysis.confidence ++ "/5\n" ++
        "- Dataset statistics: " ++
        (match st.datasetStatistics with
         | some stats =>
             if stats.totalContracts = 0 then "N/A" else toString stats.totalContracts
         | none => "N/A") ++ " contracts analyzed\n"
    else ""
  let findingsBlock :=
    String.intercalate "\n"
      ((analysis.vulnerabilities.entries.map fun e =>
          if 0 < e.2.length then e.1.upperKey ++ ": " ++ String.intercalate ", " e.2
          else "").filter (fun s => !(s == "")))
  let recBlock :=
    String.intercalate "\n" (numberedList 1 (contextualRecommendations.take 5))
  let prompt :=
    "You are an expert smart contract security auditor with access to a comprehensive vulnerability database enhanced with real-world contract analysis.\n\n" ++
    datasetInfo ++
    "\n\nPRE-ANALYSIS FINDINGS:\n" ++ findingsBlock ++
    "\n\nCONTEXTUAL SECURITY KNOWLEDGE:\n" ++ recBlock ++
    "\n\nCONTRACT CODE TO ANALYZE:\n" ++ contractCode ++
    promptAuditInstructions ++
    toString st.knowledgeBase.vulnerabilities.length ++
    promptJsonFormat
  (prompt, st)

/-! ### The line-oriented reentrancy heuristic of `datasetProcessor.ts` -/

/-- Worker for `jsSplitNewlines` (accumulates the current line reversed). -/
def splitLinesGo : List Char → List Char → List String
  | acc, [] => [⟨acc.reverse⟩]
  | acc, c :: rest =>
      if c = '\n' then (⟨acc.reverse⟩ : String) :: splitLinesGo [] rest
      else splitLinesGo (c :: acc) rest

/-- `code.split('\n')`. -/
def jsSplitNewlines (s : String) : List String := splitLinesGo [] s.data

/-- The index-tracking loop of `checkCallValueBeforeStateChange`: remember the index of the
last line containing `.call`/`.send` and of the last line containing `balances[` and `=`
(both start at `-1`). -/
def callStateScan : List String → ℤ → ℤ → ℤ → ℤ × ℤ
  | [], _, callIndex, stateIndex => (callIndex, stateIndex)
  | line :: rest, i, callIndex, stateIndex =>
      callStateScan rest (i + 1)
        (if strContains line ".call" || strContains line ".send" then i else callIndex)
        (if strContains line "balances[" && strContains line "=" then i else stateIndex)

/-- `checkCallValueBeforeStateChange` of `datasetProcessor.ts`: split on newlines and flag
only when a `.call`/`.send` line index precedes a `balances[...] = ...` line index. -/
def checkCallValueBeforeStateChange (code : String) : Bool :=
  let r := callStateScan (jsSplitNewlines code) 0 (-1) (-1)
  decide (r.1 ≠ -1 ∧ r.2 ≠ -1 ∧ r.1 < r.2)

/-- The reentrancy branch of `DatasetProcessor.analyzeWithAcademicPatterns`
(`CALLValueInvocation ∧ RepeatedCallValue`): requires a call-value idiom, a state-change
token and the call-before-state-change line ordering. -/
def academicReentrancyDetected (code : String) : Bool :=
  let hasCallValue := strContains code ".call\x7bvalue:" || strContains code ".call.value" ||
    strContains code ".send(" || strContains code ".transfer("
  let hasStateChange := strContains code "balances[" || strContains code "balance =" ||
    strContains code "mapping("
  hasCallValue && hasStateChange && checkCallValueBeforeStateChange code

/-! ### Sum-level reformulations used by the specification claims -/

/-- A pattern fires on a source text when `match` returns a non-null array. -/
def firesB (v : VulnerabilityPattern) (code : List Char) : Bool :=
  decide (0 < jsMatchCount v.pattern code)

/-- The claims' `totalWeightedIssues`: raw match count times severity weight, summed over
the catalog (non-firing patterns contribute `0`). -/
def totalWeightedIssues (st : EngineState) (s : String) : ℕ :=
  (st.knowledgeBase.vulnerabilities.map
    (fun v => jsMatchCount v.pattern s.data * getSeverityWeight v.severity)).sum

/-- The contribution of one pattern to `datasetMatches`. -/
def dmContrib (v : VulnerabilityPattern) (code : List Char) : ℕ :=
  if firesB v code && enhancedHit v then 1 else 0

/-- The contribution of one pattern to the running confidence sum. -/
def confContrib (v : VulnerabilityPattern) (code : List Char) : ℚ :=
  if firesB v code then (if enhancedHit v then v.prevalence.getD 0 else 0.5) else 0

/-- The claims' `datasetMatchCount`. -/
def datasetMatchTotal (st : EngineState) (s : String) : ℕ :=
  (st.knowledgeBase.vulnerabilities.map (fun v => dmContrib v s.data)).sum

/-- The claims' `confidenceSum`. -/
def confidenceSumTotal (st : EngineState) (s : String) : ℚ :=
  (st.knowledgeBase.vulnerabilities.map (fun v => confContrib v s.data)).sum

/-- The number of finding-bucket entries of a given severity: one per firing pattern of that
severity. -/
def findingCount (st : EngineState) (s : String) (sev : Severity) : ℕ :=
  (st.knowledgeBase.vulnerabilities.filter
    (fun v => firesB v s.data && (v.severity == sev))).length

/-! ### Relating the fold inside `analyzeContractWithConfidence` to the sums -/

theorem FindingSet.push_bucket (fs : FindingSet) (sv : Severity) (d : String)
    (sev : Severity) :
    (fs.push sv d).bucket sev = fs.bucket sev ++ (if sv == sev then [d] else []) := by
  cases sv <;> cases sev <;> simp [FindingSet.push, FindingSet.bucket]

theorem vulnStep_totalIssues (code : List Char) (acc : MatchAcc) (v : VulnerabilityPattern) :
    (vulnStep code acc v).totalIssues =
      acc.totalIssues + jsMatchCount v.pattern code * getSeverityWeight v.severity := by
  simp only [vulnStep]
  by_cases h : 0 < jsMatchCount v.pattern code
  · simp only [h, if_pos]
    split <;> simp
  · have h0 : jsMatchCount v.pattern code = 0 := by omega
    simp [h, h0]

theorem vulnStep_datasetMatches (code : List Char) (acc : MatchAcc)
    (v : VulnerabilityPattern) :
    (vulnStep code acc v).datasetMatches = acc.datasetMatches + dmContrib v code := by
  by_cases h : 0 < jsMatchCount v.pattern code <;> by_cases he : enhancedHit v <;>
    simp [vulnStep, dmContrib, firesB, h, he]

theorem vulnStep_totalConfidence (code : List Char) (acc : MatchAcc)
    (v : VulnerabilityPattern) :
    (vulnStep code acc v).totalConfidence = acc.totalConfidence + confContrib v code := by
  by_cases h : 0 < jsMatchCount v.pattern code <;> by_cases he : enhancedHit v <;>
    simp [vulnStep, confContrib, firesB, h, he]

theorem vulnStep_bucket (code : List Char) (acc : MatchAcc) (v : VulnerabilityPattern)
    (sev : Severity) :
    (vulnStep code acc v).vulnerabilities.bucket sev =
      acc.vulnerabilities.bucket sev ++
        (if firesB v code && (v.severity == sev) then [v.description] else []) := by
  by_cases h : 0 < jsMatchCount v.pattern code <;> by_cases he : enhancedHit v <;>
    simp [vulnStep, firesB, h, he, FindingSet.push_bucket]

theorem foldl_totalIssues (code : List Char) (l : List VulnerabilityPattern)
    (acc : MatchAcc) :
    (l.foldl (vulnStep code) acc).totalIssues =
      acc.totalIssues +
        (l.map (fun v => jsMatchCount v.pattern code * getSeverityWeight v.severity)).sum := by
  induction l generalizing acc with
  | nil => simp
  | cons v t ih =>
      simp only [List.foldl_cons, List.map_cons, List.sum_cons, ih, vulnStep_totalIssues]
      omega

theorem foldl_datasetMatches (code : List Char) (l : List VulnerabilityPattern)
    (acc : MatchAcc) :
    (l.foldl (vulnStep code) acc).datasetMatches =
      acc.datasetMatches + (l.map (fun v => dmContrib v code)).sum := by
  induction l generalizing acc with
  | nil => simp
  | cons v t ih =>
      simp only [List.foldl_cons, List.map_cons, List.sum_cons, ih, vulnStep_datasetMatches]
      omega

theorem foldl_totalConfidence (code : List Char) (l : List VulnerabilityPattern)
    (acc : MatchAcc) :
    (l.foldl (vulnStep code) acc).totalConfidence =
      acc.totalConfidence + (l.map (fun v => confContrib v code)).sum := by
  induction l generalizing acc with
  | nil => simp
  | cons v t ih =>
      simp only [List.foldl_cons, List.map_cons, List.sum_cons, ih, vulnStep_totalConfidence]
      ring

theorem foldl_bucket (code : List Char) (l : List VulnerabilityPattern) (acc : MatchAcc)
    (sev : Severity) :
    (l.foldl (vulnStep code) acc).vulnerabilities.bucket sev =
      acc.vulnerabilities.bucket sev ++
        (l.filter (fun v => firesB v code && (v.severity == sev))).map
          (fun v => v.description) := by
  induction l generalizing acc with
  | nil => simp
  | cons v t ih =>
      simp only [List.foldl_cons, ih, vulnStep_bucket, List.filter_cons]
      by_cases h : (firesB v code && (v.severity == sev)) = true
      · simp [h]
      · simp [h]

theorem analyze_securityScore (st : EngineState) (s : String) :
    (analyzeContractWithConfidence st s).securityScore =
      max 0 (5 - ((totalWeightedIssues st s / 2 : ℕ) : ℤ)) := by
  simp only [analyzeContractWithConfidence, foldl_totalIssues, totalWeightedIssues,
    initialMatchAcc, Nat.zero_add]

theorem analyze_bucket (st : EngineState) (s : String) (sev : Severity) :
    (analyzeContractWithConfidence st s).vulnerabilities.bucket sev =
      (st.knowledgeBase.vulnerabilities.filter
        (fun v => firesB v s.data && (v.severity == sev))).map (fun v => v.description) := by
  simp only [analyzeContractWithConfidence, foldl_bucket, initialMatchAcc, emptyFindings]
  cases sev <;> simp [FindingSet.bucket]

theorem analyze_datasetMatches (st : EngineState) (s : String) :
    (analyzeContractWithConfidence st s).datasetMatches = datasetMatchTotal st s := by
  simp only [analyzeContractWithConfidence, foldl_datasetMatches, datasetMatchTotal,
    initialMatchAcc, Nat.zero_add]

theorem analyze_knowledgeBaseSize (st : EngineState) (s : String) :
    (analyzeContractWithConfidence st s).knowledgeBaseSize =
      st.knowledgeBase.vulnerabilities.length := rfl

theorem analyze_datasetEnhanced (st : EngineState) (s : String) :
    (analyzeContractWithConfidence st s).datasetEnhanced = st.datasetPatternsLoaded := rfl

/-- The pre-rounding confidence, expressed through the sums. -/
def rawConfidence (st : EngineState) (s : String) : ℚ :=
  if 0 < datasetMatchTotal st s then
    min ((confidenceSumTotal st s /
      (((datasetMatchTotal st s + findingCount st s .critical + findingCount st s .high :
        ℕ) : ℚ))) * 5) 5
  else
    min (confidenceSumTotal st s) 5

theorem analyze_confidence (st : EngineState) (s : String) :
    (analyzeContractWithConfidence st s).confidence = roundTo1 (rawConfidence st s) := by
  have hc := foldl_bucket s.data st.knowledgeBase.vulnerabilities initialMatchAcc .critical
  have hh := foldl_bucket s.data st.knowledgeBase.vulnerabilities initialMatchAcc .high
  simp only [FindingSet.bucket, initialMatchAcc, emptyFindings, List.nil_append] at hc hh
  simp only [analyzeContractWithConfidence, foldl_datasetMatches, foldl_totalConfidence,
    initialMatchAcc, emptyFindings, hc, hh]
  simp only [rawConfidence, datasetMatchTotal, confidenceSumTotal, findingCount,
    List.length_map, Nat.zero_add, zero_add]

theorem analyze_gasOptimizations (st : EngineState) (s : String) :
    (analyzeContractWithConfidence st s).gasOptimizations =
      (GAS_OPTIMIZATION_PATTERNS.filter
        (fun gp => decide (0 < jsMatchCount gp.pattern s.data))).map
          (fun gp => gp.optimization) := by
  simp only [analyzeContractWithConfidence]
  generalize GAS_OPTIMIZATION_PATTERNS = l
  suffices h : ∀ (l : List GasPattern) (acc : List String),
      l.foldl (fun gs gp =>
        if 0 < jsMatchCount gp.pattern s.data then gs ++ [gp.optimization] else gs) acc =
      acc ++ (l.filter (fun gp => decide (0 < jsMatchCount gp.pattern s.data))).map
        (fun gp => gp.optimization) by
    simpa using h l []
  intro l
  induction l with
  | nil => simp
  | cons gp t ih =>
      intro acc
      simp only [List.foldl_cons, List.filter_cons]
      by_cases h : 0 < jsMatchCount gp.pattern s.data
      · simp [h, ih]
      · simp [h, ih]

/-! ### The specification claims -/

/-- C1: for every source text analyzed against the effective catalog, the security score
equals `clamp(5 - floor(totalWeightedIssues / 2), 0, 5)`, where `totalWeightedIssues` sums
raw match count times severity weight (`critical=4, high=3, medium=2, low=1`) over all
firing patterns; a text with zero firing patterns scores exactly `5`, and the score is an
integer in `[0, 5]`. -/
theorem securityScore_is_clamped_weighted_formula (st : EngineState) (s : String) :
    (analyzeContractWithConfidence st s).securityScore =
      min 5 (max 0 (5 - ((totalWeightedIssues st s : ℤ) / 2)))
    ∧ getSeverityWeight .critical = 4 ∧ getSeverityWeight .high = 3
    ∧ getSeverityWeight .medium = 2 ∧ getSeverityWeight .low = 1
    ∧ ((∀ v ∈ st.knowledgeBase.vulnerabilities, jsMatchCount v.pattern s.data = 0) →
        (analyzeContractWithConfidence st s).securityScore = 5)
    ∧ 0 ≤ (analyzeContractWithConfidence st s).securityScore
    ∧ (analyzeContractWithConfidence st s).securityScore ≤ 5 := by
  have h := analyze_securityScore st s
  refine ⟨?_, rfl, rfl, rfl, rfl, ?_, ?_, ?_⟩
  · rw [h]; omega
  · intro hz
    have hT : totalWeightedIssues st s = 0 := by
      apply List.sum_eq_zero
      intro x hx
      obtain ⟨v, hv, rfl⟩ := List.mem_map.1 hx
      simp [hz v hv]
    rw [h, hT]
    decide
  · rw [h]; omega
  · rw [h]; omega

/-- Witness for C1 at the empty source text: no pattern of the shipped catalog fires, and
the security score is exactly `5`. -/
theorem securityScore_is_clamped_weighted_formula_witness :
    (∀ v ∈ defaultEngine.knowledgeBase.vulnerabilities,
      jsMatchCount v.pattern ("" : String).data = 0)
    ∧ (analyzeContractWithConfidence defaultEngine "").securityScore = 5 :=
  ⟨by decide,
   (securityScore_is_clamped_weighted_formula defaultEngine "").2.2.2.2.2.1 (by decide)⟩

/-- C2: the confidence is the one-decimal rounding of
`min((confidenceSum / (datasetMatchCount + criticalCount + highCount)) * 5, 5)` when
`datasetMatchCount > 0` and of `min(confidenceSum, 5)` otherwise, where each firing
enhanced pattern contributes its prevalence to `confidenceSum` and one to
`datasetMatchCount`, each firing base pattern contributes a fixed `0.5`, and
`criticalCount`/`highCount` are the numbers of finding-bucket entries of those
severities. -/
theorem confidence_is_normalized_prevalence_formula (st : EngineState) (s : String) :
    (analyzeContractWithConfidence st s).confidence =
      roundTo1 (
        if 0 < datasetMatchTotal st s then
          min ((confidenceSumTotal st s /
            (((datasetMatchTotal st s +
               (analyzeContractWithConfidence st s).vulnerabilities.critical.length +
               (analyzeContractWithConfidence st s).vulnerabilities.high.length : ℕ) :
              ℚ))) * 5) 5
        else min (confidenceSumTotal st s) 5)
    ∧ (analyzeContractWithConfidence st s).datasetMatches = datasetMatchTotal st s := by
  refine ⟨?_, analyze_datasetMatches st s⟩
  have hc := analyze_bucket st s .critical
  have hh := analyze_bucket st s .high
  simp only [FindingSet.bucket] at hc hh
  rw [analyze_confidence]
  simp only [rawConfidence, findingCount, hc, hh, List.length_map]

/-- C3: a firing pattern appends exactly one copy of its description to the bucket of its
severity (the bucket is the in-order image of the firing patterns of that severity), the
weighted issue total counts every raw match, and a critical pattern firing 50 times forces
`securityScore = 0` while contributing one description entry per firing pattern with that
description. -/
theorem one_description_per_firing_pattern (st : EngineState) (s : String) :
    (∀ sev, (analyzeContractWithConfidence st s).vulnerabilities.bucket sev =
      (st.knowledgeBase.vulnerabilities.filter
        (fun v => firesB v s.data && (v.severity == sev))).map (fun v => v.description))
    ∧ (analyzeContractWithConfidence st s).securityScore =
        max 0 (5 - ((totalWeightedIssues st s / 2 : ℕ) : ℤ))
    ∧ (∀ v ∈ st.knowledgeBase.vulnerabilities, v.severity = .critical →
        jsMatchCount v.pattern s.data = 50 →
        (analyzeContractWithConfidence st s).securityScore = 0 ∧
        ((analyzeContractWithConfidence st s).vulnerabilities.critical).count v.description =
          (st.knowledgeBase.vulnerabilities.filter
            (fun q => firesB q s.data && (q.severity == Severity.critical) &&
              (q.description == v.description))).length) := by
  refine ⟨analyze_bucket st s, analyze_securityScore st s, ?_⟩
  intro v hv hcrit hcount
  constructor
  · have hle : 200 ≤ totalWeightedIssues st s := by
      have hmem : jsMatchCount v.pattern s.data * getSeverityWeight v.severity ∈
          st.knowledgeBase.vulnerabilities.map
            (fun v => jsMatchCount v.pattern s.data * getSeverityWeight v.severity) :=
        List.mem_map_of_mem _ hv
      have := List.single_le_sum (l := st.knowledgeBase.vulnerabilities.map
          (fun v => jsMatchCount v.pattern s.data * getSeverityWeight v.severity))
        (fun x _ => Nat.zero_le x) _ hmem
      rw [hcount, hcrit] at this
      simpa [getSeverityWeight] using this
    rw [analyze_securityScore]
    omega
  · have hb := analyze_bucket st s .critical
    simp only [FindingSet.bucket] at hb
    rw [hb, List.count_eq_countP, List.countP_map, List.countP_eq_length_filter,
      List.filter_filter]
    congr 1
    apply List.filter_congr
    intro q _
    simp only [Function.comp]
    cases firesB q s.data <;> cases q.severity == Severity.critical <;>
      cases q.description == v.description <;> rfl

/-- A 10,000-character-scale synthetic source: 50 occurrences of an unguarded
`selfdestruct`. -/
def fiftySelfdestructs : String := ⟨(List.replicate 50 ("selfdestruct(a);".data)).flatten⟩

/-- Witness for C3: the `unprotected_selfdestruct` pattern is in the shipped catalog, is
critical, fires exactly 50 times on `fiftySelfdestructs`, the score floors at `0`, and its
description appears exactly once in the critical bucket. -/
theorem one_description_per_firing_pattern_witness :
    unprotectedSelfdestructPattern ∈ defaultEngine.knowledgeBase.vulnerabilities
    ∧ unprotectedSelfdestructPattern.severity = .critical
    ∧ jsMatchCount unprotectedSelfdestructPattern.pattern fiftySelfdestructs.data = 50
    ∧ (analyzeContractWithConfidence defaultEngine fiftySelfdestructs).securityScore = 0
    ∧ ((analyzeContractWithConfidence defaultEngine
        fiftySelfdestructs).vulnerabilities.critical).count
        unprotectedSelfdestructPattern.description = 1 := by
  have hmem : unprotectedSelfdestructPattern ∈ defaultEngine.knowledgeBase.vulnerabilities :=
    List.mem_append_left _
      (List.Mem.tail _ (List.Mem.tail _ (List.Mem.tail _ (List.Mem.tail _
        (List.Mem.head _)))))
  have hcount : jsMatchCount unprotectedSelfdestructPattern.pattern fiftySelfdestructs.data
      = 50 := by decide
  have h := (one_description_per_firing_pattern defaultEngine fiftySelfdestructs).2.2
    unprotectedSelfdestructPattern hmem rfl hcount
  refine ⟨hmem, rfl, hcount, h.1, ?_⟩
  rw [h.2]
  decide

/-- C5: when the enhanced-catalog source is absent or malformed the loader never throws
(it is a total function), the engine keeps exactly the 8-pattern base catalog, and every
analysis reports `knowledgeBaseSize = 8` and `datasetEnhanced = false`. -/
theorem base_catalog_fallback_on_missing_enhanced_source :
    BASE_VULNERABILITY_PATTERNS.length = 8
    ∧ (mkEngine none).datasetPatternsLoaded = false
    ∧ (mkEngine none).knowledgeBase.vulnerabilities = BASE_VULNERABILITY_PATTERNS
    ∧ ∀ s : String,
        (analyzeContractWithConfidence (mkEngine none) s).knowledgeBaseSize = 8 ∧
        (analyzeContractWithConfidence (mkEngine none) s).datasetEnhanced = false := by
  refine ⟨rfl, rfl, rfl, fun s => ⟨?_, rfl⟩⟩
  rw [analyze_knowledgeBaseSize]
  rfl

/-- C8: the prompt-augmentation formatter is deterministic: it leaves the engine state
unchanged, and two successive invocations on the same source text produce byte-identical
strings. -/
theorem prompt_generation_is_deterministic (st : EngineState) (code : String) :
    (generateEnhancedPromptWithDataset st code).2 = st
    ∧ (generateEnhancedPromptWithDataset
        (generateEnhancedPromptWithDataset st code).2 code).1 =
      (generateEnhancedPromptWithDataset st code).1 :=
  ⟨rfl, rfl⟩

/-- C9: `reloadEnhancedPatterns` rebuilds only the enhanced subset: the new catalog is the
non-enhanced (base) patterns, unchanged and in their original relative order, followed by
whatever the reload fetched; in particular the surviving base patterns are a prefix of the
new catalog. -/
theorem reload_preserves_base_patterns (st : EngineState) (src : Option EnhancedConfig) :
    (reloadEnhancedPatterns st src).2.knowledgeBase.vulnerabilities =
      st.knowledgeBase.vulnerabilities.filter (fun p => !(strContains p.id "enhanced_"))
        ++ (match src with | some cfg => cfg.patterns | none => [])
    ∧ st.knowledgeBase.vulnerabilities.filter (fun p => !(strContains p.id "enhanced_")) <+:
        (reloadEnhancedPatterns st src).2.knowledgeBase.vulnerabilities := by
  cases src with
  | none =>
      exact ⟨by simp [reloadEnhancedPatterns, loadEnhancedPatterns],
        by simp [reloadEnhancedPatterns, loadEnhancedPatterns]⟩
  | some cfg =>
      refine ⟨rfl, ?_⟩
      exact ⟨cfg.patterns, rfl⟩

/-- C10: a firing pattern whose id contains `'enhanced_'` but whose prevalence is absent or
`0` receives the base-pattern treatment (`+0.5` to the confidence sum, no dataset-match
increment); the enhanced treatment (add prevalence, increment `datasetMatchCount`) applies
exactly when a nonzero prevalence is present, and these contributions are what one loop
iteration of the scoring engine adds. -/
theorem enhanced_id_without_prevalence_gets_base_treatment (v : VulnerabilityPattern)
    (code : List Char) (hfire : firesB v code = true) :
    ((strContains v.id "enhanced_" = true ∧ (v.prevalence = none ∨ v.prevalence = some 0)) →
      confContrib v code = 0.5 ∧ dmContrib v code = 0)
    ∧ (∀ p : ℚ, v.prevalence = some p → p ≠ 0 → strContains v.id "enhanced_" = true →
        confContrib v code = p ∧ dmContrib v code = 1)
    ∧ (∀ acc : MatchAcc,
        (vulnStep code acc v).datasetMatches = acc.datasetMatches + dmContrib v code ∧
        (vulnStep code acc v).totalConfidence = acc.totalConfidence + confContrib v code) := by
  refine ⟨?_, ?_, fun acc =>
    ⟨vulnStep_datasetMatches code acc v, vulnStep_totalConfidence code acc v⟩⟩
  · rintro ⟨hid, hp⟩
    have he : enhancedHit v = false := by
      rcases hp with hp | hp <;> simp [enhancedHit, prevalenceTruthy, hp]
    simp [confContrib, dmContrib, hfire, he]
  · intro p hp hne hid
    have he : enhancedHit v = true := by
      simp [enhancedHit, prevalenceTruthy, hp, hid, hne]
    simp [confContrib, dmContrib, hfire, he, hp]

/-- A synthetic firing pattern whose id follows the enhanced naming convention but carries
no prevalence. -/
def enhancedIdNoPrevalencePattern : VulnerabilityPattern :=
  { id := "enhanced_demo", name := "demo", severity := .low, pattern := lit "x",
    description := "demo", recommendation := "demo", examples := [] }

/-- Witness for C10: the synthetic enhanced-id pattern without prevalence fires on `"x"`
and contributes `0.5` and no dataset match. -/
theorem enhanced_id_without_prevalence_gets_base_treatment_witness :
    confContrib enhancedIdNoPrevalencePattern "x".data = 0.5
    ∧ dmContrib enhancedIdNoPrevalencePattern "x".data = 0 :=
  (enhanced_id_without_prevalence_gets_base_treatment enhancedIdNoPrevalencePattern
    "x".data (by decide)).1 ⟨by decide, Or.inl rfl⟩

/-- The quoted scenario input of C4 (a single line: the call statement and the
balance-reset statement are separated by `; `, not by a newline). -/
def reentrantCallThenReset : String :=
  "(bool success,) = msg.sender.call\x7bvalue: amount\x7d(\"\"); balances[msg.sender] = 0;"

/-- The same external call with no state-reset write anywhere in the text. -/
def reentrantCallNoReset : String :=
  "(bool success,) = msg.sender.call\x7bvalue: amount\x7d(\"\");"

/-- C4 counterexample: a source text containing the external-call-like token but no
state-reset line at all still receives a critical reentrancy finding (the engine's
detection is regex-based and has no state-reset condition), refuting the claimed no-flag
edge case; and the repository's one line-ordering heuristic
(`checkCallValueBeforeStateChange` in `datasetProcessor.ts`) does not flag the claim's
quoted input either, refuting `flags exactly when the call is on an earlier line`. -/
theorem reentrancy_flagged_without_state_reset :
    reentrancyPattern.description ∈
      (analyzeContractWithConfidence defaultEngine
        reentrantCallNoReset).vulnerabilities.critical
    ∧ academicReentrancyDetected reentrantCallThenReset = false := by
  exact ⟨by decide, by decide⟩

/-- C4 amended: the engine's reentrancy detection is per-pattern regex matching with no
call-before-effect ordering condition.  The quoted scenario input does get reentrancy
findings in the critical bucket (base and enhanced), but so does the same call without any
state-reset line; and the line-ordering heuristic of `datasetProcessor.ts` does not fire on
the quoted single-line input (the call and the reset share line 0, and the reset line even
counts as a call line because `balances[msg.sender]` contains `.send`). -/
theorem reentrancy_flag_is_regex_based :
    reentrancyPattern.description ∈
      (analyzeContractWithConfidence defaultEngine
        reentrantCallThenReset).vulnerabilities.critical
    ∧ enhancedReentrancyPattern.description ∈
      (analyzeContractWithConfidence defaultEngine
        reentrantCallThenReset).vulnerabilities.critical
    ∧ reentrancyPattern.description ∈
      (analyzeContractWithConfidence defaultEngine
        reentrantCallNoReset).vulnerabilities.critical
    ∧ checkCallValueBeforeStateChange reentrantCallThenReset = false := by
  exact ⟨by decide, by decide, by decide, by decide⟩

/-- A text on which the critical `enhanced_reentrancy` pattern fires twice. -/
def repeatedSenderCalls : String := "msg.sender.call msg.sender.call"

/-- One more occurrence of the `enhanced_reentrancy` pattern (its
`address\([^)]*\)\.call` alternative), whose body happens to contain `require( success`. -/
def lookaheadKillerOccurrence : String := "address(require( success).call"

/-- C7 counterexample: `enhanced_reentrancy` is critical and fires on the base text (twice,
score 1); appending one more occurrence of that same pattern RAISES the security score to
3, because inside the appended text `require( success` makes the negative lookahead
`(?!.*require\s*\(.*success)` kill both earlier matches. -/
theorem appending_critical_occurrence_raises_score :
    enhancedReentrancyPattern ∈ defaultEngine.knowledgeBase.vulnerabilities
    ∧ enhancedReentrancyPattern.severity = .critical
    ∧ jsMatchCount enhancedReentrancyPattern.pattern repeatedSenderCalls.data = 2
    ∧ jsMatchCount enhancedReentrancyPattern.pattern lookaheadKillerOccurrence.data = 1
    ∧ (analyzeContractWithConfidence defaultEngine repeatedSenderCalls).securityScore = 1
    ∧ (analyzeContractWithConfidence defaultEngine
        (repeatedSenderCalls ++ lookaheadKillerOccurrence)).securityScore = 3 := by
  refine ⟨List.mem_append_right _ (List.Mem.head _), rfl, by decide, by decide, by decide,
    by decide⟩

/-- C7 amended: appending text to a source never increases the security score, provided no
catalog pattern's match count decreases across the append (the counterexample shows that a
negative lookahead can otherwise invalidate earlier matches). -/
theorem score_nonincreasing_when_counts_nondecreasing (st : EngineState) (s t : String)
    (hmono : ∀ v ∈ st.knowledgeBase.vulnerabilities,
      jsMatchCount v.pattern s.data ≤ jsMatchCount v.pattern (s ++ t).data) :
    (analyzeContractWithConfidence st (s ++ t)).securityScore ≤
      (analyzeContractWithConfidence st s).securityScore := by
  rw [analyze_securityScore, analyze_securityScore]
  have hT : totalWeightedIssues st s ≤ totalWeightedIssues st (s ++ t) := by
    simp only [totalWeightedIssues]
    apply List.sum_le_sum
    intro v hv
    exact Nat.mul_le_mul_right _ (hmono v hv)
  omega

/-- Every regex of the catalog (and of the gas table) begins, in every alternative, with a
mandatory literal character different from `'Z'`, so no match attempt succeeds anywhere in
an all-`'Z'` text. -/
theorem runs_nil_on_allZ (r : RE)
    (hr : r ∈ [reentrancyRE, uncheckedReturnRE, integerOverflowRE, txOriginRE,
      selfdestructRE, delegatecallRE, timestampRE, missingInputValidationRE,
      enhancedReentrancyRE, enhancedTimestampRE, enhancedAccessControlRE,
      enhancedOverflowRE, enhancedUncheckedCallRE, gasLoopLengthRE, gasStorageReadRE,
      gasStringMemoryRE]) :
    ∀ (p : Option Char) (s : List Char), (∀ c ∈ s, c = 'Z') → runs r p s = [] := by
  simp only [List.mem_cons, List.not_mem_nil, or_false] at hr
  rcases hr with rfl | rfl | rfl | rfl | rfl | rfl | rfl | rfl | rfl | rfl | rfl | rfl |
    rfl | rfl | rfl | rfl <;>
  · intro p s h
    cases s with
    | nil => rfl
    | cons c t =>
        have hc := h c (List.mem_cons_self c t)
        subst hc
        rfl

/-- If a regex matches at no position of any all-`'Z'` suffix, its global match count on an
all-`'Z'` text is `0`. -/
theorem jsMatchCount_replicate_Z (r : RE)
    (hruns : ∀ (p : Option Char) (s : List Char), (∀ c ∈ s, c = 'Z') → runs r p s = [])
    (n : ℕ) :
    jsMatchCount r (List.replicate n 'Z') = 0 := by
  have hall : ∀ c ∈ List.replicate n 'Z', c = 'Z' := fun c hc => List.eq_of_mem_replicate hc
  suffices hgo : ∀ (fuel : ℕ) (p : Option Char) (s : List Char), (∀ c ∈ s, c = 'Z') →
      jsCountGo fuel r p s = 0 from hgo _ none _ hall
  intro fuel
  induction fuel with
  | zero => intro p s _; rfl
  | succ k ih =>
      intro p s h
      cases s with
      | nil => simp [jsCountGo, tryMatch, hruns p [] h]
      | cons c t =>
          simp only [jsCountGo, tryMatch, hruns p (c :: t) h, List.head?]
          exact ih (some c) t (fun x hx => h x (List.mem_cons_of_mem _ hx))

/-- C6 (the code has no size cap): for EVERY length `n`, the analysis accepts the
`n`-character source `'Z' * n` and analyzes it in full, returning the ordinary result
(score 5, empty buckets, no gas hints, confidence 0, full catalog size) — there is no
"input too large" rejection for any input size, contradicting the claimed error handling. -/
theorem analysis_has_no_input_size_cap (n : ℕ) :
    (analyzeContractWithConfidence defaultEngine ⟨List.replicate n 'Z'⟩).securityScore = 5
    ∧ (∀ sev, (analyzeContractWithConfidence defaultEngine
        ⟨List.replicate n 'Z'⟩).vulnerabilities.bucket sev = [])
    ∧ (analyzeContractWithConfidence defaultEngine
        ⟨List.replicate n 'Z'⟩).gasOptimizations = []
    ∧ (analyzeContractWithConfidence defaultEngine ⟨List.replicate n 'Z'⟩).confidence = 0
    ∧ (analyzeContractWithConfidence defaultEngine
        ⟨List.replicate n 'Z'⟩).knowledgeBaseSize = 13 := by
  have hz : ∀ v ∈ defaultEngine.knowledgeBase.vulnerabilities,
      jsMatchCount v.pattern (List.replicate n 'Z') = 0 := by
    intro v hv
    have hv' : v = reentrancyPattern ∨ v = uncheckedReturnPattern ∨
        v = integerOverflowPattern ∨ v = txOriginPattern ∨
        v = unprotectedSelfdestructPattern ∨ v = delegatecallPattern ∨
        v = timestampPattern ∨ v = missingInputValidationPattern ∨
        v = enhancedReentrancyPattern ∨ v = enhancedTimestampPattern ∨
        v = enhancedAccessControlPattern ∨ v = enhancedOverflowPattern ∨
        v = enhancedUncheckedCallPattern := by
      simpa [defaultEngine, mkEngine, loadEnhancedPatterns, baseEngineState,
        repoEnhancedConfig, BASE_VULNERABILITY_PATTERNS, ENHANCED_VULNERABILITY_PATTERNS,
        List.mem_append, List.mem_cons, List.not_mem_nil, or_false] using hv
    rcases hv' with rfl | rfl | rfl | rfl | rfl | rfl | rfl | rfl | rfl | rfl | rfl |
      rfl | rfl <;>
      exact jsMatchCount_replicate_Z _ (runs_nil_on_allZ _ (by
        simp [reentrancyPattern, uncheckedReturnPattern, integerOverflowPattern,
          txOriginPattern, unprotectedSelfdestructPattern, delegatecallPattern,
          timestampPattern, missingInputValidationPattern, enhancedReentrancyPattern,
          enhancedTimestampPattern, enhancedAccessControlPattern, enhancedOverflowPattern,
          enhancedUncheckedCallPattern])) n
  have hdata : (⟨List.replicate n 'Z'⟩ : String).data = List.replicate n 'Z' := rfl
  have hfires : ∀ v ∈ defaultEngine.knowledgeBase.vulnerabilities,
      firesB v (⟨List.replicate n 'Z'⟩ : String).data = false := by
    intro v hv
    simp [firesB, hdata, hz v hv]
  have hT : totalWeightedIssues defaultEngine ⟨List.replicate n 'Z'⟩ = 0 := by
    apply List.sum_eq_zero
    intro x hx
    obtain ⟨v, hv, rfl⟩ := List.mem_map.1 hx
    simp [hdata, hz v hv]
  refine ⟨?_, ?_, ?_, ?_, ?_⟩
  · rw [analyze_securityScore, hT]
    decide
  · intro sev
    rw [analyze_bucket]
    have hf : defaultEngine.knowledgeBase.vulnerabilities.filter
        (fun v => firesB v (⟨List.replicate n 'Z'⟩ : String).data && (v.severity == sev))
        = [] := by
      apply List.filter_eq_nil_iff.2
      intro v hv
      simp [hfires v hv]
    rw [hf]
    rfl
  · rw [analyze_gasOptimizations]
    have hg : ∀ gp ∈ GAS_OPTIMIZATION_PATTERNS,
        jsMatchCount gp.pattern (List.replicate n 'Z') = 0 := by
      intro gp hgp
      have hv' : gp = GAS_OPTIMIZATION_PATTERNS[0] ∨ gp = GAS_OPTIMIZATION_PATTERNS[1] ∨
          gp = GAS_OPTIMIZATION_PATTERNS[2] := by
        simpa [GAS_OPTIMIZATION_PATTERNS, List.mem_cons, List.not_mem_nil, or_false]
          using hgp
      rcases hv' with rfl | rfl | rfl <;>
        exact jsMatchCount_replicate_Z _ (runs_nil_on_allZ _
          (by simp [GAS_OPTIMIZATION_PATTERNS])) n
    have hf : GAS_OPTIMIZATION_PATTERNS.filter
        (fun gp => decide (0 < jsMatchCount gp.pattern
          (⟨List.replicate n 'Z'⟩ : String).data)) = [] := by
      apply List.filter_eq_nil_iff.2
      intro gp hgp
      simp [hdata, hg gp hgp]
    rw [hf]
    rfl
  · rw [analyze_confidence]
    have hdm : datasetMatchTotal defaultEngine ⟨List.replicate n 'Z'⟩ = 0 := by
      apply List.sum_eq_zero
      intro x hx
      obtain ⟨v, hv, rfl⟩ := List.mem_map.1 hx
      simp [dmContrib, hfires v hv]
    have hcs : confidenceSumTotal defaultEngine ⟨List.replicate n 'Z'⟩ = 0 := by
      apply List.sum_eq_zero
      intro x hx
      obtain ⟨v, hv, rfl⟩ := List.mem_map.1 hx
      simp [confContrib, hfires v hv]
    rw [rawConfidence, hdm, hcs]
    norm_num [roundTo1]
  · rw [analyze_knowledgeBaseSize]
    rfl

/-- Witness for the amended C7: appending a second `selfdestruct` occurrence decreases no
match count, and the score moves from 3 to 1 (non-increasing). -/
theorem score_nonincreasing_when_counts_nondecreasing_witness :
    (∀ v ∈ defaultEngine.knowledgeBase.vulnerabilities,
      jsMatchCount v.pattern ("selfdestruct(a)" : String).data ≤
        jsMatchCount v.pattern (("selfdestruct(a)" : String) ++ "selfdestruct(b)").data)
    ∧ (analyzeContractWithConfidence defaultEngine
        (("selfdestruct(a)" : String) ++ "selfdestruct(b)")).securityScore ≤
      (analyzeContractWithConfidence defaultEngine "selfdestruct(a)").securityScore :=
  ⟨by decide, score_nonincreasing_when_counts_nondecreasing defaultEngine
    "selfdestruct(a)" "selfdestruct(b)" (by decide)⟩

end DappAuditor
